import Mathlib

/-!
Verification development for the reading-club learning-assists tool
(`script.py`).  The program is a thin interactive orchestration script:
a file selector, an audio extractor (ffmpeg subprocess), a transcriber
(local speech model), a summarizer and a flashcard generator (remote
chat completions), and a seven-way menu controller.

The shallow embedding below translates the script into pure Lean
functions.  Interactive inputs (`input()` calls) become explicit string
parameters; the filesystem becomes an explicit `FS` value; the three
external dependencies (ffmpeg, the speech model, the chat service)
become oracle functions supplied by the environment; every observable
action (console print, directory creation, file write, subprocess
invocation, chat request) is recorded in an effect trace, in program
order.  ANSI colour escape codes and the text echoed by `input()`
prompts are omitted from recorded messages; the informational content
of each message is kept verbatim.
-/

/-- One chat message as built by the script: a role string and a content
string (the script builds these as Python dicts with keys `role` and
`content`). -/
structure Msg where
  role : String
  content : String
deriving DecidableEq, Repr

/-- Observable effects of a run, recorded in program order.  `print`
is a console line (colour codes elided), `makedirs` is the
`os.makedirs(..., exist_ok=True)` call, `writeFile` is an
`open(..., "w").write(...)`, `runProc` is a `subprocess.run` with the
given argv, and `chatRequest` is one `client.chat.completions.create`
call with the given model name and message list. -/
inductive Effect where
  | print (s : String)
  | makedirs (p : String)
  | writeFile (p : String) (content : String)
  | runProc (argv : List String)
  | chatRequest (model : String) (messages : List Msg)
deriving DecidableEq, Repr

def Effect.isPrint : Effect → Bool
  | .print _ => true
  | _ => false

def Effect.isChat : Effect → Bool
  | .chatRequest _ _ => true
  | _ => false

def Effect.isWrite : Effect → Bool
  | .writeFile _ _ => true
  | _ => false

def Effect.isRunProc : Effect → Bool
  | .runProc _ => true
  | _ => false

/-- A filesystem write in the wide sense: either a file write or a
directory creation. -/
def Effect.isFsWrite : Effect → Bool
  | .writeFile _ _ => true
  | .makedirs _ => true
  | _ => false

/-- Python `str.strip()` with no argument: remove leading and trailing
whitespace.  Implemented over the character list so that it reduces
inside the kernel (core `String.trim` is defined by well-founded
recursion on byte positions and does not). -/
def pyStrip (s : String) : String :=
  String.mk (((s.data.dropWhile Char.isWhitespace).reverse.dropWhile Char.isWhitespace).reverse)

/-- Python `str.lower()` on the ASCII data the script handles. -/
def pyLower (s : String) : String :=
  String.mk (s.data.map Char.toLower)

/-- Python `str.endswith(suffix)`. -/
def strEndsWith (s suffix : String) : Bool :=
  suffix.data.isSuffixOf s.data

/-- Python `str.startswith(pre)` (used by `posixpath.join`). -/
def strStartsWith (s pre : String) : Bool :=
  pre.data.isPrefixOf s.data

/-- Drop any trailing `/` separators from a path, as POSIX path
resolution does when checking a directory (`os.path.isdir("d/")` is
true when `d` is a directory). -/
def dropTrailingSlashes (p : String) : String :=
  String.mk ((p.data.reverse.dropWhile (fun c => c = '/')).reverse)

/-- Filesystem model: the existing directories, each with the names of
its immediate entries (what `os.listdir` returns); the directories
whose listing raises `PermissionError`; and the regular files with
their text content.  Directory keys and file keys are stored without
trailing separators. -/
structure FS where
  dirs : List (String × List String)
  denied : List String
  files : List (String × String)
deriving DecidableEq, Repr

/-- `os.path.isdir`: trailing separators are ignored. -/
def FS.isDir (fs : FS) (p : String) : Bool :=
  fs.dirs.any (fun d => d.1 == dropTrailingSlashes p)

/-- A regular file exists at exactly this path. -/
def FS.fileExists (fs : FS) (p : String) : Bool :=
  fs.files.any (fun kv => kv.1 == p)

/-- `os.path.exists`: true for an existing file, or for an existing
directory (also when written with a trailing separator). -/
def FS.pathExists (fs : FS) (p : String) : Bool :=
  fs.fileExists p || fs.isDir p

/-- `open(p).read()` for an existing text file; total function,
returning `""` off the domain actually exercised by the script (the
script only reads paths it has checked with `os.path.exists`). -/
def FS.readFile (fs : FS) (p : String) : String :=
  (((fs.files.find? (fun kv => kv.1 == p)).map Prod.snd).getD "")

/-- `os.listdir`: `none` models a raised `PermissionError` (the only
listing failure the script handles; the script only lists directories
it has checked with `os.path.isdir`). -/
def FS.listdir (fs : FS) (p : String) : Option (List String) :=
  if fs.denied.contains (dropTrailingSlashes p) then none
  else some ((((fs.dirs.find? (fun d => d.1 == dropTrailingSlashes p))).map Prod.snd).getD [])

/-- `open(p, "w").write(content)`: replace or create the file entry. -/
def FS.setFile (fs : FS) (p content : String) : FS :=
  { fs with files := (p, content) :: fs.files.filter (fun kv => kv.1 != p) }

/-- `os.makedirs(p, exist_ok=True)`: create the directory (empty) when
absent, leave the filesystem unchanged when it already exists. -/
def FS.mkdirIfAbsent (fs : FS) (p : String) : FS :=
  if fs.isDir p then fs
  else { fs with dirs := (dropTrailingSlashes p, []) :: fs.dirs }

/-- Replay the filesystem-relevant effects of a trace.  Console
output, subprocess invocations and network requests do not change the
modelled filesystem (the files written by ffmpeg itself are outside
the model; the script records its own writes explicitly). -/
def applyEffect (fs : FS) (e : Effect) : FS :=
  match e with
  | .makedirs p => fs.mkdirIfAbsent p
  | .writeFile p c => fs.setFile p c
  | _ => fs

def applyTrace (fs : FS) (l : List Effect) : FS :=
  l.foldl applyEffect fs

/-- `posixpath.join` restricted to two components, exactly as Python
computes it: an absolute second component replaces the first; otherwise
a separator is inserted unless the first component is empty or already
ends in one.  In particular `pathJoin d "" = d ++ "/"` for a non-empty
`d` without a trailing separator — the behaviour behind the empty
selection input edge case. -/
def pathJoin (a b : String) : String :=
  if strStartsWith b "/" then b
  else if a = "" || strEndsWith a "/" then a ++ b
  else a ++ "/" ++ b

/-- Python `str.isdigit()` on the ASCII inputs the script deals with:
non-empty and all characters decimal digits. -/
def pyIsDigit (s : String) : Bool :=
  !s.data.isEmpty && s.data.all Char.isDigit

/-- Python `int(...)` on a string of decimal digits. -/
def strToNat (s : String) : Nat :=
  s.data.foldl (fun n c => 10 * n + (c.toNat - 48)) 0

/-- The configured video extension tuple of `choose_video_file`. -/
def video_extensions : List String := [".mp4", ".mov", ".avi"]

/-- `f.lower().endswith(video_extensions)`. -/
def hasVideoExt (f : String) : Bool :=
  video_extensions.any (fun e => strEndsWith (pyLower f) e)

/-- The directory the selector works in: the stripped directory input,
or the process working directory when the stripped input is empty. -/
def resolveDirectory (cwd dirInput : String) : String :=
  if pyStrip dirInput = "" then cwd else pyStrip dirInput

/-- The enumerated listing the selector prints before asking for a
selection. -/
def listingMessages (directory : String) (video_files : List String) : List String :=
  ("Video files in " ++ directory ++ ":") ::
    (List.range video_files.length).map
      (fun i => "  " ++ toString (i + 1) ++ ". " ++ video_files.getD i "")

/-- Shallow embedding of `choose_video_file`.  `cwd` stands for
`os.getcwd()`, `dirInput` and `selInput` for the two `input()` results.
Returns the selected path (`none` models Python's `None`) together with
the console lines printed, in order. -/
def choose_video_file (fs : FS) (cwd dirInput selInput : String) :
    Option String × List String :=
  let directory := resolveDirectory cwd dirInput
  if fs.isDir directory then
    match fs.listdir directory with
    | none =>
      (none, ["Permission error: Cannot access " ++ directory ++
        ". Please check your system permissions."])
    | some entries =>
      let video_files := entries.filter hasVideoExt
      if video_files.isEmpty then
        (none, ["No video files found in that directory."])
      else
        let listing := listingMessages directory video_files
        let choice := pyStrip selInput
        if pyIsDigit choice then
          let index := strToNat choice
          if 1 ≤ index ∧ index ≤ video_files.length then
            (some (pathJoin directory (video_files.getD (index - 1) "")), listing)
          else
            (none, listing ++ ["Invalid selection number."])
        else
          let candidate := pathJoin directory choice
          if fs.pathExists candidate then
            (some candidate, listing)
          else
            (none, listing ++ ["File not found."])
  else
    (none, ["Directory does not exist."])

/-- A single-quote character as a string, used inside the flashcard
prompt text. -/
def squote : String := Char.toString (Char.ofNat 39)

/-- The summary prompt of `generate_summary`, embedding the transcript
verbatim between two fixed literals. -/
def summary_prompt (transcription : String) : String :=
  "Please generate a concise and informative summary for the following reading club transcription:\n\n"
    ++ (transcription ++ "\n\nSummary:")

/-- The flashcard prompt of `generate_flashcards`, embedding the
summary and the transcript verbatim. -/
def flashcards_prompt (summary transcription : String) : String :=
  "Using the following summary and transcription from a reading club session, create a set of flashcards. "
    ++ ("Format the output as a CSV file with two columns: "
    ++ squote ++ "Front" ++ squote ++ " and " ++ squote ++ "Back" ++ squote
    ++ ". Only output the CSV content without any additional text.\n\n"
    ++ "Summary:\n" ++ summary ++ "\n\n"
    ++ "Transcription:\n" ++ transcription ++ "\n\nCSV:")

/-- The two-message single-turn conversation both generators send: the
fixed instruction message (note the role string `developer` and the
trailing period in the content, exactly as in the source) followed by
one user message holding the prompt. -/
def chat_messages (prompt : String) : List Msg :=
  [{ role := "developer", content := "You are a helpful assistant." },
   { role := "user", content := prompt }]

/-- The chat request `generate_summary` issues for a transcript. -/
def summaryRequest (transcription : String) : Effect :=
  Effect.chatRequest "gpt-4o" (chat_messages (summary_prompt transcription))

/-- The chat request `generate_flashcards` issues. -/
def flashcardsRequest (summary transcription : String) : Effect :=
  Effect.chatRequest "gpt-4o" (chat_messages (flashcards_prompt summary transcription))

/-- The three external dependencies, as oracle functions: the exit
code `subprocess.run` observes for a given argv, the text the speech
model produces for a given audio path, and the content of the first
completion choice the chat service returns for a given model name and
message list. -/
structure Oracles where
  ffmpegExit : List String → Nat
  whisperText : String → String
  chatContent : String → List Msg → String

/-- `subprocess.CalledProcessError`: the failed argv and its non-zero
exit status. -/
structure CalledProcessError where
  argv : List String
  exitCode : Nat
deriving DecidableEq, Repr

/-- The fixed ffmpeg argv built by `extract_audio`: overwrite the
destination (`-y`), drop the video stream (`-vn`), encode audio as
16-bit little-endian PCM (`-acodec pcm_s16le`), resample to 44100 Hz
(`-ar 44100`), two channels (`-ac 2`). -/
def extract_command (video_file audio_file : String) : List String :=
  ["ffmpeg", "-y", "-i", video_file, "-vn", "-acodec", "pcm_s16le",
   "-ar", "44100", "-ac", "2", audio_file]

/-- Shallow embedding of `extract_audio`: one `subprocess.run` with
`check=True`, so a non-zero exit status raises `CalledProcessError`
(modelled as the `Except.error` outcome) and the success message is
printed only on a zero exit.  The effect list records what happened up
to the raise. -/
def extract_audio (o : Oracles) (video_file audio_file : String) :
    List Effect × Except CalledProcessError Unit :=
  let cmd := extract_command video_file audio_file
  if o.ffmpegExit cmd = 0 then
    ([Effect.runProc cmd, Effect.print ("Audio extracted to " ++ audio_file)], Except.ok ())
  else
    ([Effect.runProc cmd], Except.error { argv := cmd, exitCode := o.ffmpegExit cmd })

/-- Shallow embedding of `transcribe_audio`: run the speech model on
the audio file, write the transcript to the transcription file, and
return the transcript string. -/
def transcribe_audio (o : Oracles) (audio_file transcription_file : String) :
    List Effect × String :=
  let transcription := o.whisperText audio_file
  ([Effect.print "Loading Whisper model...",
    Effect.print "Transcribing audio...",
    Effect.print "Transcription complete.",
    Effect.writeFile transcription_file transcription,
    Effect.print ("Transcription saved to " ++ transcription_file)],
   transcription)

/-- Shallow embedding of `generate_summary`: build the fixed prompt,
send the two-message conversation to model `gpt-4o`, and return the
stripped content of the first completion choice. -/
def generate_summary (o : Oracles) (transcription : String) :
    List Effect × String :=
  let prompt := summary_prompt transcription
  let summary := pyStrip (o.chatContent "gpt-4o" (chat_messages prompt))
  ([Effect.print "Generating summary with OpenAI API...",
    Effect.chatRequest "gpt-4o" (chat_messages prompt),
    Effect.print "Summary generated."],
   summary)

/-- Shallow embedding of `generate_flashcards`: same conversation
shape with the flashcard prompt; the stripped completion content is
returned verbatim, with no CSV validation. -/
def generate_flashcards (o : Oracles) (summary transcription : String) :
    List Effect × String :=
  let prompt := flashcards_prompt summary transcription
  let flashcards_csv := pyStrip (o.chatContent "gpt-4o" (chat_messages prompt))
  ([Effect.print "Generating flashcards with OpenAI API...",
    Effect.chatRequest "gpt-4o" (chat_messages prompt),
    Effect.print "Flashcards generated."],
   flashcards_csv)

/-- The environment of one `interactive_menu` run: the initial
filesystem, the working directory, the five `input()` answers the run
may consume, and the external oracles. -/
structure MenuEnv where
  fs : FS
  cwd : String
  choiceInput : String
  folderInput : String
  dirInput : String
  selInput : String
  oracles : Oracles

/-- The output folder: the stripped folder input, defaulting to
`outputs` when empty. -/
def resolveOutputFolder (folderInput : String) : String :=
  if pyStrip folderInput = "" then "outputs" else pyStrip folderInput

/-- The console lines `print_header` and the menu listing emit before
the choice is read. -/
def bannerLine : String := String.mk (List.replicate 67 (Char.ofNat 61))

def headerEffects : List Effect :=
  [Effect.print bannerLine,
   Effect.print "          ETEPS Reading Club Learning Assists Production Tool",
   Effect.print bannerLine,
   Effect.print "Select the operation you would like to perform:",
   Effect.print "  1. Full workflow (extract audio, transcribe, generate summary, and flashcards)",
   Effect.print "  2. Extract audio only",
   Effect.print "  3. Transcribe audio only (and save transcription)",
   Effect.print "  4. Generate summary (from existing transcription file)",
   Effect.print "  5. Generate flashcards (requires transcription; summary will be generated if missing)",
   Effect.print "  6. Generate summary and flashcards (from existing transcription file)",
   Effect.print "  7. Quit"]

/-- The missing-prerequisite message of options 4, 5 and 6. -/
def missingTranscriptionMsg : String :=
  "Transcription file not found. Please run transcription first."

/-- The dispatch on the menu choice, after the output folder has been
created: everything `interactive_menu` does from the artefact-path
computation onward.  Returns the effect trace of the dispatched branch
together with `Except.error e` when an uncaught `CalledProcessError`
terminates the run. -/
def menu_dispatch (env : MenuEnv) (output_folder : String) :
    List Effect × Except CalledProcessError Unit :=
  let transcription_file := pathJoin output_folder "transcription.txt"
  let summary_file := pathJoin output_folder "summary.txt"
  let flashcards_file := pathJoin output_folder "flashcards.csv"
  let audio_file := pathJoin output_folder "audio.wav"
  let choice := pyStrip env.choiceInput
  if choice = "1" then
    match choose_video_file env.fs env.cwd env.dirInput env.selInput with
    | (none, msgs) => (msgs.map Effect.print, Except.ok ())
    | (some video_file, msgs) =>
      let ex := extract_audio env.oracles video_file audio_file
      match ex.2 with
      | Except.error e => (msgs.map Effect.print ++ ex.1, Except.error e)
      | Except.ok _ =>
        let tr := transcribe_audio env.oracles audio_file transcription_file
        let su := generate_summary env.oracles tr.2
        let fl := generate_flashcards env.oracles su.2 tr.2
        (msgs.map Effect.print ++ ex.1 ++ tr.1 ++ su.1 ++
          [Effect.writeFile summary_file su.2] ++ fl.1 ++
          [Effect.writeFile flashcards_file fl.2,
           Effect.print "Full workflow complete!",
           Effect.print ("Audio saved to " ++ audio_file),
           Effect.print ("Transcription saved to " ++ transcription_file),
           Effect.print ("Summary saved to " ++ summary_file),
           Effect.print ("Flashcards saved to " ++ flashcards_file)],
         Except.ok ())
  else if choice = "2" then
    match choose_video_file env.fs env.cwd env.dirInput env.selInput with
    | (none, msgs) => (msgs.map Effect.print, Except.ok ())
    | (some video_file, msgs) =>
      let ex := extract_audio env.oracles video_file audio_file
      match ex.2 with
      | Except.error e => (msgs.map Effect.print ++ ex.1, Except.error e)
      | Except.ok _ =>
        (msgs.map Effect.print ++ ex.1 ++
          [Effect.print ("Audio extraction complete. File saved to " ++ audio_file)],
         Except.ok ())
  else if choice = "3" then
    match choose_video_file env.fs env.cwd env.dirInput env.selInput with
    | (none, msgs) => (msgs.map Effect.print, Except.ok ())
    | (some video_file, msgs) =>
      let ex := extract_audio env.oracles video_file audio_file
      match ex.2 with
      | Except.error e => (msgs.map Effect.print ++ ex.1, Except.error e)
      | Except.ok _ =>
        let tr := transcribe_audio env.oracles audio_file transcription_file
        (msgs.map Effect.print ++ ex.1 ++ tr.1 ++
          [Effect.print ("Transcription complete. File saved to " ++ transcription_file)],
         Except.ok ())
  else if choice = "4" then
    if env.fs.pathExists transcription_file then
      let transcription := env.fs.readFile transcription_file
      let su := generate_summary env.oracles transcription
      (su.1 ++
        [Effect.writeFile summary_file su.2,
         Effect.print ("Summary generated and saved to " ++ summary_file)],
       Except.ok ())
    else ([Effect.print missingTranscriptionMsg], Except.ok ())
  else if choice = "5" then
    if env.fs.pathExists transcription_file then
      let transcription := env.fs.readFile transcription_file
      let se :=
        if env.fs.pathExists summary_file then
          (([] : List Effect), env.fs.readFile summary_file)
        else
          let su := generate_summary env.oracles transcription
          (su.1 ++ [Effect.writeFile summary_file su.2], su.2)
      let fl := generate_flashcards env.oracles se.2 transcription
      (se.1 ++ fl.1 ++
        [Effect.writeFile flashcards_file fl.2,
         Effect.print ("Flashcards generated and saved to " ++ flashcards_file)],
       Except.ok ())
    else ([Effect.print missingTranscriptionMsg], Except.ok ())
  else if choice = "6" then
    if env.fs.pathExists transcription_file then
      let transcription := env.fs.readFile transcription_file
      let su := generate_summary env.oracles transcription
      let fl := generate_flashcards env.oracles su.2 transcription
      (su.1 ++
        [Effect.writeFile summary_file su.2] ++ fl.1 ++
        [Effect.writeFile flashcards_file fl.2,
         Effect.print ("Summary and flashcards generated and saved to " ++ summary_file ++
           " and " ++ flashcards_file)],
       Except.ok ())
    else ([Effect.print missingTranscriptionMsg], Except.ok ())
  else if choice = "7" then
    ([Effect.print "Goodbye!"], Except.ok ())
  else
    ([Effect.print "Invalid choice. Exiting."], Except.ok ())

/-- Shallow embedding of `interactive_menu`: print the header and the
menu, read the choice and the output folder, create the output folder
(`os.makedirs(..., exist_ok=True)`, before any dispatch on the
choice), then dispatch. -/
def interactive_menu (env : MenuEnv) :
    List Effect × Except CalledProcessError Unit :=
  let output_folder := resolveOutputFolder env.folderInput
  let d := menu_dispatch env output_folder
  (headerEffects ++ Effect.makedirs output_folder :: d.1, d.2)

/-- The effect trace of one menu run. -/
def menuTrace (env : MenuEnv) : List Effect :=
  (interactive_menu env).1

def outputFolderOf (env : MenuEnv) : String :=
  resolveOutputFolder env.folderInput

def transcriptionFileOf (env : MenuEnv) : String :=
  pathJoin (outputFolderOf env) "transcription.txt"

def summaryFileOf (env : MenuEnv) : String :=
  pathJoin (outputFolderOf env) "summary.txt"

def flashcardsFileOf (env : MenuEnv) : String :=
  pathJoin (outputFolderOf env) "flashcards.csv"

/-- Oracles with zero ffmpeg exit status and empty external responses,
used for concrete test environments. -/
def oracle0 : Oracles where
  ffmpegExit := fun _ => 0
  whisperText := fun _ => ""
  chatContent := fun _ _ => ""

/-- Oracles whose ffmpeg invocation fails with exit status 1. -/
def oracleFail : Oracles where
  ffmpegExit := fun _ => 1
  whisperText := fun _ => ""
  chatContent := fun _ _ => ""

/-- A directory `vids` holding two video files and one text file. -/
def fsVids : FS :=
  { dirs := [("vids", ["a.mp4", "b.mov", "notes.txt"])]
    denied := []
    files := [("vids/a.mp4", ""), ("vids/b.mov", ""), ("vids/notes.txt", "n")] }

/-- A directory `vids` whose listing raises `PermissionError`. -/
def fsDenied : FS := { dirs := [("vids", ["a.mp4"])], denied := ["vids"], files := [] }

/-- A directory `docs` holding no video files. -/
def fsNoVideo : FS := { dirs := [("docs", ["notes.txt"])], denied := [], files := [] }

/-- The empty filesystem. -/
def fsNone : FS := { dirs := [], denied := [], files := [] }

/-- The filesystem of the C4 failing input: an existing directory
`vids` holding one video file. -/
def fsEmptyInput : FS :=
  { dirs := [("vids", ["a.mp4"])], denied := [], files := [("vids/a.mp4", "")] }

/-- An `outputs` directory already holding a transcription and a
summary artefact. -/
def fsArtifacts : FS :=
  { dirs := [("outputs", ["transcription.txt", "summary.txt"])]
    denied := []
    files := [("outputs/transcription.txt", "the transcript"),
              ("outputs/summary.txt", "the old summary")] }

/-- A menu environment over the given filesystem and menu choice, with
default (empty) folder and selector inputs and the benign oracles. -/
def baseEnv (fs : FS) (choice : String) : MenuEnv where
  fs := fs
  cwd := "/"
  choiceInput := choice
  folderInput := ""
  dirInput := ""
  selInput := ""
  oracles := oracle0

theorem head?_append_of_head? {α : Type} {l1 : List α} {a : α} (h : l1.head? = some a)
    (l2 : List α) : (l1 ++ l2).head? = some a := by
  cases l1 with
  | nil => simp at h
  | cons x xs => simpa using h

theorem summary_prompt_head (t : String) : (summary_prompt t).data.head? = some 'P' := by
  rw [summary_prompt, String.data_append]
  exact head?_append_of_head? (by decide) _

theorem flashcards_prompt_head (s t : String) :
    (flashcards_prompt s t).data.head? = some 'U' := by
  rw [flashcards_prompt, String.data_append]
  exact head?_append_of_head? (by decide) _

/-- The two prompt templates can never produce the same string: the
summary prompt starts with `Please`, the flashcard prompt with
`Using`. -/
theorem summary_prompt_ne_flashcards_prompt (a b c : String) :
    summary_prompt a ≠ flashcards_prompt b c := by
  intro h
  have h1 := summary_prompt_head a
  rw [h, flashcards_prompt_head] at h1
  exact absurd h1 (by decide)

theorem pathJoin_ne_of_length_ne (a : String) {b c : String}
    (hb : strStartsWith b "/" = false) (hc : strStartsWith c "/" = false)
    (hl : b.length ≠ c.length) : pathJoin a b ≠ pathJoin a c := by
  unfold pathJoin
  simp only [hb, hc, Bool.false_eq_true, if_false]
  by_cases hs : (a = "" || strEndsWith a "/") = true
  · simp only [hs, if_true]
    intro he
    have h2 := congrArg String.length he
    simp only [String.length_append] at h2
    omega
  · rw [if_neg hs, if_neg hs]
    intro he
    have h2 := congrArg String.length he
    simp only [String.length_append] at h2
    omega

theorem summary_file_ne_flashcards_file (out : String) :
    pathJoin out "summary.txt" ≠ pathJoin out "flashcards.csv" :=
  pathJoin_ne_of_length_ne out (by decide) (by decide) (by decide)

theorem applyTrace_append (fs : FS) (l1 l2 : List Effect) :
    applyTrace fs (l1 ++ l2) = applyTrace (applyTrace fs l1) l2 :=
  List.foldl_append ..

theorem isDir_applyEffect (fs : FS) (e : Effect) (p : String)
    (h : fs.isDir p = true) : (applyEffect fs e).isDir p = true := by
  cases e with
  | makedirs q =>
    simp only [applyEffect, FS.mkdirIfAbsent]
    by_cases hq : fs.isDir q = true
    · simp [hq, h]
    · rw [if_neg hq]
      simp only [FS.isDir, List.any_cons, Bool.or_eq_true] at h ⊢
      exact Or.inr h
  | writeFile q c => simpa [applyEffect, FS.setFile, FS.isDir] using h
  | print s => simpa [applyEffect] using h
  | runProc a => simpa [applyEffect] using h
  | chatRequest m ms => simpa [applyEffect] using h

theorem isDir_applyTrace (fs : FS) (l : List Effect) (p : String)
    (h : fs.isDir p = true) : (applyTrace fs l).isDir p = true := by
  induction l generalizing fs with
  | nil => exact h
  | cons e t ih => exact ih _ (isDir_applyEffect fs e p h)

theorem isDir_mkdirIfAbsent_self (fs : FS) (p : String) :
    (fs.mkdirIfAbsent p).isDir p = true := by
  unfold FS.mkdirIfAbsent
  by_cases h : fs.isDir p = true
  · simp [h]
  · rw [if_neg h]
    simp [FS.isDir]

/-- C3: for every directory whose video-file listing is non-empty and
every numeric selection input, `choose_video_file` returns the join of
the directory with the selected (1-based) listed file when the index is
within range, and returns the sentinel `none` together with a
user-visible message when it is out of range. -/
theorem selector_numeric_selection_spec (fs : FS) (cwd dirInput selInput : String)
    (entries : List String)
    (hdir : fs.isDir (resolveDirectory cwd dirInput) = true)
    (hls : fs.listdir (resolveDirectory cwd dirInput) = some entries)
    (hne : (entries.filter hasVideoExt).isEmpty = false)
    (hdig : pyIsDigit (pyStrip selInput) = true) :
    (1 ≤ strToNat (pyStrip selInput) ∧
        strToNat (pyStrip selInput) ≤ (entries.filter hasVideoExt).length →
      choose_video_file fs cwd dirInput selInput =
        (some (pathJoin (resolveDirectory cwd dirInput)
            ((entries.filter hasVideoExt).getD (strToNat (pyStrip selInput) - 1) "")),
         listingMessages (resolveDirectory cwd dirInput) (entries.filter hasVideoExt))) ∧
    (¬ (1 ≤ strToNat (pyStrip selInput) ∧
        strToNat (pyStrip selInput) ≤ (entries.filter hasVideoExt).length) →
      choose_video_file fs cwd dirInput selInput =
        (none, listingMessages (resolveDirectory cwd dirInput) (entries.filter hasVideoExt) ++
          ["Invalid selection number."])) := by
  constructor <;> intro h <;>
    simp only [choose_video_file, hdir, if_true, hls, hne, Bool.false_eq_true,
      if_false, hdig, ite_true, ite_false]
  · rw [if_pos h]
  · rw [if_neg h]

set_option maxRecDepth 4000 in
/-- Witness for C3: in `vids` the video listing is `[a.mp4, b.mov]`;
selection input ` 2 ` resolves to `vids/b.mov`. -/
theorem selector_numeric_selection_spec_witness :
    (fsVids.isDir (resolveDirectory "/h" "vids") = true ∧
     fsVids.listdir (resolveDirectory "/h" "vids") = some ["a.mp4", "b.mov", "notes.txt"] ∧
     (["a.mp4", "b.mov", "notes.txt"].filter hasVideoExt).isEmpty = false ∧
     pyIsDigit (pyStrip " 2 ") = true ∧
     1 ≤ strToNat (pyStrip " 2 ") ∧
     strToNat (pyStrip " 2 ") ≤ (["a.mp4", "b.mov", "notes.txt"].filter hasVideoExt).length) ∧
    choose_video_file fsVids "/h" "vids" " 2 " =
      (some "vids/b.mov", listingMessages "vids" ["a.mp4", "b.mov"]) := by
  refine ⟨⟨rfl, rfl, rfl, rfl, by decide, by decide⟩, ?_⟩
  have h := (selector_numeric_selection_spec fsVids "/h" "vids" " 2 "
    ["a.mp4", "b.mov", "notes.txt"] rfl rfl rfl rfl).1 ⟨by decide, by decide⟩
  exact h.trans (by decide)

/-- C5: when the chosen directory does not exist, listing it raises a
permission error, or no entry carries a video extension,
`choose_video_file` returns the sentinel `none` together with exactly
one user-visible message (no exception escapes: the embedding is a
total function). -/
theorem selector_failure_cases (fs : FS) (cwd dirInput selInput : String) :
    (fs.isDir (resolveDirectory cwd dirInput) = false →
      choose_video_file fs cwd dirInput selInput = (none, ["Directory does not exist."])) ∧
    (fs.isDir (resolveDirectory cwd dirInput) = true →
      fs.listdir (resolveDirectory cwd dirInput) = none →
      choose_video_file fs cwd dirInput selInput =
        (none, ["Permission error: Cannot access " ++ resolveDirectory cwd dirInput ++
          ". Please check your system permissions."])) ∧
    (∀ entries, fs.isDir (resolveDirectory cwd dirInput) = true →
      fs.listdir (resolveDirectory cwd dirInput) = some entries →
      (entries.filter hasVideoExt).isEmpty = true →
      choose_video_file fs cwd dirInput selInput =
        (none, ["No video files found in that directory."])) := by
  refine ⟨fun h1 => ?_, fun h1 h2 => ?_, fun entries h1 h2 h3 => ?_⟩
  · simp only [choose_video_file, h1, Bool.false_eq_true, if_false]
  · simp only [choose_video_file, h1, if_true, h2]
  · simp only [choose_video_file, h1, if_true, h2, h3, if_true, ite_true]

/-- Witness for C5: all three failure cases at concrete filesystems —
a missing directory, a permission-denied directory, and a directory
without video files. -/
theorem selector_failure_cases_witness :
    (fsNone.isDir (resolveDirectory "/h" "nope") = false ∧
     choose_video_file fsNone "/h" "nope" "1" = (none, ["Directory does not exist."])) ∧
    (fsDenied.isDir (resolveDirectory "/h" "vids") = true ∧
     fsDenied.listdir (resolveDirectory "/h" "vids") = none ∧
     choose_video_file fsDenied "/h" "vids" "1" =
       (none, ["Permission error: Cannot access vids. Please check your system permissions."])) ∧
    (fsNoVideo.isDir (resolveDirectory "/h" "docs") = true ∧
     fsNoVideo.listdir (resolveDirectory "/h" "docs") = some ["notes.txt"] ∧
     (["notes.txt"].filter hasVideoExt).isEmpty = true ∧
     choose_video_file fsNoVideo "/h" "docs" "1" =
       (none, ["No video files found in that directory."])) := by
  refine ⟨⟨rfl, ?_⟩, ⟨rfl, rfl, ?_⟩, ⟨rfl, rfl, rfl, ?_⟩⟩
  · exact (selector_failure_cases fsNone "/h" "nope" "1").1 rfl
  · exact ((selector_failure_cases fsDenied "/h" "vids" "1").2.1 rfl rfl).trans rfl
  · exact (selector_failure_cases fsNoVideo "/h" "docs" "1").2.2 ["notes.txt"] rfl rfl rfl

/-- C6: a non-numeric selection input naming an entry that exists
relative to the chosen directory makes `choose_video_file` return the
joined path — with no constraint on the entry having a video
extension. -/
theorem selector_literal_filename (fs : FS) (cwd dirInput selInput : String)
    (entries : List String)
    (hdir : fs.isDir (resolveDirectory cwd dirInput) = true)
    (hls : fs.listdir (resolveDirectory cwd dirInput) = some entries)
    (hne : (entries.filter hasVideoExt).isEmpty = false)
    (hnd : pyIsDigit (pyStrip selInput) = false)
    (hex : fs.pathExists (pathJoin (resolveDirectory cwd dirInput) (pyStrip selInput)) = true) :
    (choose_video_file fs cwd dirInput selInput).1 =
      some (pathJoin (resolveDirectory cwd dirInput) (pyStrip selInput)) := by
  simp only [choose_video_file, hdir, if_true, hls, hne, Bool.false_eq_true, if_false,
    hnd, hex, ite_true, ite_false]

/-- Witness for C6: `notes.txt` exists in `vids` but is not a video
file, and the selector still returns `vids/notes.txt`. -/
theorem selector_literal_filename_witness :
    (fsVids.isDir (resolveDirectory "/h" "vids") = true ∧
     fsVids.listdir (resolveDirectory "/h" "vids") = some ["a.mp4", "b.mov", "notes.txt"] ∧
     (["a.mp4", "b.mov", "notes.txt"].filter hasVideoExt).isEmpty = false ∧
     pyIsDigit (pyStrip "notes.txt") = false ∧
     fsVids.pathExists (pathJoin (resolveDirectory "/h" "vids") (pyStrip "notes.txt")) = true ∧
     hasVideoExt "notes.txt" = false) ∧
    (choose_video_file fsVids "/h" "vids" "notes.txt").1 = some "vids/notes.txt" := by
  refine ⟨⟨rfl, rfl, rfl, rfl, rfl, rfl⟩, ?_⟩
  exact (selector_literal_filename fsVids "/h" "vids" "notes.txt"
    ["a.mp4", "b.mov", "notes.txt"] rfl rfl rfl rfl rfl).trans rfl

set_option maxRecDepth 4000 in
/-- C4: contrary to the claim, an empty selection input does not make
the Selector return the sentinel.  `"".isdigit()` is false, so the
empty string is treated as a literal filename; `os.path.join(d, "")`
is `d ++ "/"`, which exists because `d` is the (existing) chosen
directory, so the Selector returns the directory path itself.  This
contradicts the function docstring (`Returns the full path of the
selected file or None`): no file was selected. -/
theorem selector_empty_input_returns_directory :
    pyStrip "" = "" ∧
    (choose_video_file fsEmptyInput "/home/user" "vids" "").1 = some "vids/" ∧
    (choose_video_file fsEmptyInput "/home/user" "vids" "").1 ≠ none := by
  refine ⟨rfl, by decide, by decide⟩

/-- C1: a run of workflow option 5 in which both the transcription
file and the summary file exist never issues the Summarizer chat
request (for any transcript), never writes the summary file, and sends
the flashcard request built from the summary file content (unchanged)
and the transcription file content. -/
theorem option5_reuses_existing_summary (env : MenuEnv)
    (h5 : pyStrip env.choiceInput = "5")
    (ht : env.fs.pathExists (transcriptionFileOf env) = true)
    (hs : env.fs.pathExists (summaryFileOf env) = true) :
    (∀ t, summaryRequest t ∉ menuTrace env) ∧
    (∀ c, Effect.writeFile (summaryFileOf env) c ∉ menuTrace env) ∧
    flashcardsRequest (env.fs.readFile (summaryFileOf env))
      (env.fs.readFile (transcriptionFileOf env)) ∈ menuTrace env := by
  have htr : menuTrace env =
      headerEffects ++ Effect.makedirs (outputFolderOf env) ::
        [Effect.print "Generating flashcards with OpenAI API...",
         flashcardsRequest (env.fs.readFile (summaryFileOf env))
           (env.fs.readFile (transcriptionFileOf env)),
         Effect.print "Flashcards generated.",
         Effect.writeFile (flashcardsFileOf env)
           (pyStrip (env.oracles.chatContent "gpt-4o"
             (chat_messages (flashcards_prompt (env.fs.readFile (summaryFileOf env))
               (env.fs.readFile (transcriptionFileOf env)))))),
         Effect.print ("Flashcards generated and saved to " ++ flashcardsFileOf env)] := by
    simp only [menuTrace, interactive_menu, menu_dispatch, h5, ht, hs,
      transcriptionFileOf, summaryFileOf, flashcardsFileOf, outputFolderOf,
      generate_flashcards, flashcardsRequest] at *
    simp +decide
  refine ⟨?_, ?_, ?_⟩
  · intro t hmem
    rw [htr] at hmem
    simp [headerEffects, summaryRequest, flashcardsRequest, chat_messages] at hmem
    exact summary_prompt_ne_flashcards_prompt t _ _ hmem
  · intro c hmem
    rw [htr] at hmem
    simp [headerEffects, summaryFileOf, flashcardsFileOf, flashcardsRequest] at hmem
    exact summary_file_ne_flashcards_file (outputFolderOf env) hmem.1
  · rw [htr]
    simp

/-- Witness for C1: option 5 on an `outputs` directory that already
holds both artefacts. -/
theorem option5_reuses_existing_summary_witness :
    (pyStrip (baseEnv fsArtifacts "5").choiceInput = "5" ∧
     (baseEnv fsArtifacts "5").fs.pathExists
       (transcriptionFileOf (baseEnv fsArtifacts "5")) = true ∧
     (baseEnv fsArtifacts "5").fs.pathExists
       (summaryFileOf (baseEnv fsArtifacts "5")) = true) ∧
    ((∀ t, summaryRequest t ∉ menuTrace (baseEnv fsArtifacts "5")) ∧
     (∀ c, Effect.writeFile (summaryFileOf (baseEnv fsArtifacts "5")) c ∉
        menuTrace (baseEnv fsArtifacts "5")) ∧
     flashcardsRequest
       ((baseEnv fsArtifacts "5").fs.readFile (summaryFileOf (baseEnv fsArtifacts "5")))
       ((baseEnv fsArtifacts "5").fs.readFile (transcriptionFileOf (baseEnv fsArtifacts "5"))) ∈
         menuTrace (baseEnv fsArtifacts "5")) :=
  ⟨⟨rfl, rfl, rfl⟩,
   option5_reuses_existing_summary (baseEnv fsArtifacts "5") rfl rfl rfl⟩

/-- C2 (amended): a run of workflow option 4, 5 or 6 with no
transcription file writes no file, runs no subprocess, sends no chat
request, prints the missing-prerequisite message, and its only
filesystem change is the unconditional creation of the output
directory performed before the dispatch. -/
theorem options456_missing_transcription_only_create_output_dir (env : MenuEnv)
    (hc : pyStrip env.choiceInput = "4" ∨ pyStrip env.choiceInput = "5" ∨
      pyStrip env.choiceInput = "6")
    (ht : env.fs.pathExists (transcriptionFileOf env) = false) :
    menuTrace env = headerEffects ++
      [Effect.makedirs (outputFolderOf env), Effect.print missingTranscriptionMsg] ∧
    (∀ p c, Effect.writeFile p c ∉ menuTrace env) ∧
    (∀ argv, Effect.runProc argv ∉ menuTrace env) ∧
    (∀ m ms, Effect.chatRequest m ms ∉ menuTrace env) ∧
    Effect.print missingTranscriptionMsg ∈ menuTrace env ∧
    applyTrace env.fs (menuTrace env) = env.fs.mkdirIfAbsent (outputFolderOf env) := by
  have htr : menuTrace env = headerEffects ++
      [Effect.makedirs (outputFolderOf env), Effect.print missingTranscriptionMsg] := by
    rcases hc with h | h | h <;>
      · simp only [menuTrace, interactive_menu, menu_dispatch, h, ht,
          transcriptionFileOf, outputFolderOf] at *
        simp +decide
  refine ⟨htr, ?_, ?_, ?_, ?_, ?_⟩
  · intro p c hmem; rw [htr] at hmem; simp [headerEffects] at hmem
  · intro argv hmem; rw [htr] at hmem; simp [headerEffects] at hmem
  · intro m ms hmem; rw [htr] at hmem; simp [headerEffects] at hmem
  · rw [htr]; simp
  · rw [htr]; rfl

/-- Witness for C2 (amended): option 5 on the empty filesystem. -/
theorem options456_missing_transcription_only_create_output_dir_witness :
    ((pyStrip (baseEnv fsNone "5").choiceInput = "4" ∨
      pyStrip (baseEnv fsNone "5").choiceInput = "5" ∨
      pyStrip (baseEnv fsNone "5").choiceInput = "6") ∧
     (baseEnv fsNone "5").fs.pathExists (transcriptionFileOf (baseEnv fsNone "5")) = false) ∧
    (menuTrace (baseEnv fsNone "5") = headerEffects ++
      [Effect.makedirs (outputFolderOf (baseEnv fsNone "5")),
       Effect.print missingTranscriptionMsg] ∧
     (∀ p c, Effect.writeFile p c ∉ menuTrace (baseEnv fsNone "5")) ∧
     (∀ argv, Effect.runProc argv ∉ menuTrace (baseEnv fsNone "5")) ∧
     (∀ m ms, Effect.chatRequest m ms ∉ menuTrace (baseEnv fsNone "5")) ∧
     Effect.print missingTranscriptionMsg ∈ menuTrace (baseEnv fsNone "5") ∧
     applyTrace (baseEnv fsNone "5").fs (menuTrace (baseEnv fsNone "5")) =
       (baseEnv fsNone "5").fs.mkdirIfAbsent (outputFolderOf (baseEnv fsNone "5"))) :=
  ⟨⟨Or.inr (Or.inl rfl), rfl⟩,
   options456_missing_transcription_only_create_output_dir (baseEnv fsNone "5")
     (Or.inr (Or.inl rfl)) rfl⟩

set_option maxRecDepth 8000 in
/-- Counterexample to C2 as stated: an option-4 run with no
transcription file still changes the filesystem, because the output
directory `outputs` is created (by the pre-dispatch `os.makedirs`) on
a filesystem where it was absent — so "performs no filesystem writes
at all" fails. -/
theorem option4_missing_transcription_creates_directory :
    pyStrip (baseEnv fsNone "4").choiceInput = "4" ∧
    (baseEnv fsNone "4").fs.pathExists (transcriptionFileOf (baseEnv fsNone "4")) = false ∧
    applyTrace (baseEnv fsNone "4").fs (menuTrace (baseEnv fsNone "4")) ≠
      (baseEnv fsNone "4").fs ∧
    (applyTrace (baseEnv fsNone "4").fs (menuTrace (baseEnv fsNone "4"))).isDir "outputs" = true ∧
    (baseEnv fsNone "4").fs.isDir "outputs" = false := by
  refine ⟨rfl, rfl, by decide, rfl, rfl⟩

/-- C7: a run of workflow option 4 or 6 with an existing transcription
file always sends the Summarizer request built from the transcription
content and writes the freshly generated summary to the summary file —
with no hypothesis about the summary file, so in particular regardless
of whether one already exists. -/
theorem options46_always_regenerate_summary (env : MenuEnv)
    (hc : pyStrip env.choiceInput = "4" ∨ pyStrip env.choiceInput = "6")
    (ht : env.fs.pathExists (transcriptionFileOf env) = true) :
    summaryRequest (env.fs.readFile (transcriptionFileOf env)) ∈ menuTrace env ∧
    Effect.writeFile (summaryFileOf env)
      (pyStrip (env.oracles.chatContent "gpt-4o"
        (chat_messages (summary_prompt
          (env.fs.readFile (transcriptionFileOf env)))))) ∈ menuTrace env := by
  rcases hc with h | h <;>
    constructor <;>
      · simp only [menuTrace, interactive_menu, menu_dispatch, h, ht,
          transcriptionFileOf, summaryFileOf, outputFolderOf,
          generate_summary, generate_flashcards, summaryRequest] at *
        simp +decide

/-- Witness for C7: option 4 on an `outputs` directory that already
holds a summary file — the summary is regenerated anyway. -/
theorem options46_always_regenerate_summary_witness :
    ((pyStrip (baseEnv fsArtifacts "4").choiceInput = "4" ∨
      pyStrip (baseEnv fsArtifacts "4").choiceInput = "6") ∧
     (baseEnv fsArtifacts "4").fs.pathExists
       (transcriptionFileOf (baseEnv fsArtifacts "4")) = true ∧
     (baseEnv fsArtifacts "4").fs.pathExists
       (summaryFileOf (baseEnv fsArtifacts "4")) = true) ∧
    (summaryRequest ((baseEnv fsArtifacts "4").fs.readFile
        (transcriptionFileOf (baseEnv fsArtifacts "4"))) ∈ menuTrace (baseEnv fsArtifacts "4") ∧
     Effect.writeFile (summaryFileOf (baseEnv fsArtifacts "4"))
       (pyStrip ((baseEnv fsArtifacts "4").oracles.chatContent "gpt-4o"
         (chat_messages (summary_prompt ((baseEnv fsArtifacts "4").fs.readFile
           (transcriptionFileOf (baseEnv fsArtifacts "4"))))))) ∈
         menuTrace (baseEnv fsArtifacts "4")) :=
  ⟨⟨Or.inl rfl, rfl, rfl⟩,
   options46_always_regenerate_summary (baseEnv fsArtifacts "4") (Or.inl rfl) rfl⟩

/-- C8 (amended): every call of `generate_summary` sends exactly one
chat request — a single-turn two-message conversation made of one
developer-role instruction whose content is `You are a helpful
assistant.` and one user-role message holding the fixed prompt that
embeds the transcript verbatim — and returns the stripped content of
the first completion choice. -/
theorem generate_summary_request_shape (o : Oracles) (t : String) :
    (generate_summary o t).1 =
      [Effect.print "Generating summary with OpenAI API...",
       Effect.chatRequest "gpt-4o"
         [{ role := "developer", content := "You are a helpful assistant." },
          { role := "user", content := summary_prompt t }],
       Effect.print "Summary generated."] ∧
    summary_prompt t =
      "Please generate a concise and informative summary for the following reading club transcription:\n\n"
        ++ (t ++ "\n\nSummary:") ∧
    (generate_summary o t).2 =
      pyStrip (o.chatContent "gpt-4o" (chat_messages (summary_prompt t))) :=
  ⟨rfl, rfl, rfl⟩

set_option maxRecDepth 4000 in
/-- Counterexample to C8 as stated: at transcript `hello`, no message
of the conversation sent by `generate_summary` has role `system`, and
no message content equals `You are a helpful assistant` — the
instruction message uses role `developer` and its content carries a
trailing period. -/
theorem generate_summary_not_system_role :
    (generate_summary oracle0 "hello").1 =
      [Effect.print "Generating summary with OpenAI API...",
       Effect.chatRequest "gpt-4o" (chat_messages (summary_prompt "hello")),
       Effect.print "Summary generated."] ∧
    (chat_messages (summary_prompt "hello")).map Msg.role = ["developer", "user"] ∧
    (∀ m ∈ chat_messages (summary_prompt "hello"), m.role ≠ "system") ∧
    (∀ m ∈ chat_messages (summary_prompt "hello"),
      m.content ≠ "You are a helpful assistant") := by
  refine ⟨rfl, rfl, by decide, by decide⟩

/-- C9: `extract_audio` invokes ffmpeg exactly once with the fixed
argv — `-y` (overwrite destination unconditionally), `-vn` (discard
the video stream), `-acodec pcm_s16le` (16-bit little-endian PCM),
`-ar 44100`, `-ac 2` — and a non-zero exit status surfaces as the
`CalledProcessError` outcome (`subprocess.run(..., check=True)`), with
the single recorded invocation showing there is no retry. -/
theorem extract_audio_command_and_failure (o : Oracles) (video_file audio_file : String) :
    extract_command video_file audio_file =
      ["ffmpeg", "-y", "-i", video_file, "-vn", "-acodec", "pcm_s16le",
       "-ar", "44100", "-ac", "2", audio_file] ∧
    (extract_audio o video_file audio_file).1.filter Effect.isRunProc =
      [Effect.runProc (extract_command video_file audio_file)] ∧
    (o.ffmpegExit (extract_command video_file audio_file) ≠ 0 →
      (extract_audio o video_file audio_file).2 =
        Except.error { argv := extract_command video_file audio_file,
                       exitCode := o.ffmpegExit (extract_command video_file audio_file) }) ∧
    (o.ffmpegExit (extract_command video_file audio_file) = 0 →
      (extract_audio o video_file audio_file).2 = Except.ok ()) := by
  refine ⟨rfl, ?_, fun h => ?_, fun h => ?_⟩
  · by_cases h : o.ffmpegExit (extract_command video_file audio_file) = 0 <;>
      simp [extract_audio, h, Effect.isRunProc, List.filter]
  · simp [extract_audio, h]
  · simp [extract_audio, h]

/-- Witness for C9: with an oracle whose ffmpeg exits with status 1,
`extract_audio` propagates the `CalledProcessError`. -/
theorem extract_audio_command_and_failure_witness :
    oracleFail.ffmpegExit (extract_command "video.mp4" "outputs/audio.wav") ≠ 0 ∧
    (extract_audio oracleFail "video.mp4" "outputs/audio.wav").2 =
      Except.error { argv := extract_command "video.mp4" "outputs/audio.wav", exitCode := 1 } :=
  ⟨by decide,
   (extract_audio_command_and_failure oracleFail "video.mp4" "outputs/audio.wav").2.2.1
     (by decide)⟩

/-- C10: every menu invocation emits, right after the header and menu
print lines, the `os.makedirs` call on the resolved output folder —
before any effect of the choice dispatch — and in every run (for every
choice, including quit and invalid choices) the output directory
exists in the final filesystem. -/
theorem menu_creates_output_dir_before_dispatch (env : MenuEnv) :
    (∃ rest, menuTrace env =
        headerEffects ++ Effect.makedirs (outputFolderOf env) :: rest) ∧
    headerEffects.all Effect.isPrint = true ∧
    (applyTrace env.fs (menuTrace env)).isDir (outputFolderOf env) = true := by
  refine ⟨⟨(menu_dispatch env (outputFolderOf env)).1, rfl⟩, by decide, ?_⟩
  have h1 : menuTrace env =
      (headerEffects ++ [Effect.makedirs (outputFolderOf env)]) ++
        (menu_dispatch env (outputFolderOf env)).1 := by
    simp [menuTrace, interactive_menu, outputFolderOf]
  rw [h1, applyTrace_append, applyTrace_append]
  apply isDir_applyTrace
  have h2 : applyTrace env.fs headerEffects = env.fs := rfl
  rw [h2]
  exact isDir_mkdirIfAbsent_self env.fs (outputFolderOf env)
